import Mathlib

/-!
Shallow embedding of `python/pip_install/extract_wheels/lib/bazel.py`.

Pure string functions (`sanitise_name`, the four label builders,
`generate_build_file_contents`, `generate_requirements_file_contents`) are
translated directly.  The stateful orchestrator `extract_wheel` is embedded as
a function over an explicit file-system state together with an event trace of
the file-system operations it issues; fallible operations (`os.mkdir`,
`shutil.copy`, `os.remove`) return `Except`.

The collaborator modules `wheel`, `purelib` and `namespace_pkgs` are imported
by `bazel.py` but their sources are not part of the extract under review; the
spec declares them external collaborators with an interface-only contract
(spec section 1 and section 6).  They are represented by the `Wheel` structure
(the metadata-accessor interface of spec section 6) and by two opaque-to-us
function parameters `spread_purelib` and `ns_compat` of `extract_wheel`, whose
invocations are recorded in the trace.
-/

namespace Bazel

/-- Python `str.replace(old, new)` restricted to a one-character pattern and
replacement (the code only ever replaces the single characters "-" and "." by
"_"), which is exactly a character-wise map. -/
def pyReplaceChar (old new : Char) (s : String) : String :=
  ⟨s.data.map (fun c => if c = old then new else c)⟩

/-- Python `str.lower`, character-wise.  `Char.toLower` agrees with Python on
the ASCII range, which covers distribution names and label prefixes. -/
def pyLower (s : String) : String :=
  ⟨s.data.map Char.toLower⟩

/-- Character-wise map on strings (used to state normal forms of names). -/
def strMap (f : Char → Char) (s : String) : String :=
  ⟨s.data.map f⟩

/-- Python `str.strip(c)` for a single character: drop every leading and every
trailing occurrence of `c` (source line 82 uses `target.strip(unquote)` with
the double-quote character). -/
def pyStripChar (c : Char) (s : String) : String :=
  ⟨((s.data.dropWhile (fun d => d == c)).reverse.dropWhile (fun d => d == c)).reverse⟩

/-- Python string comparison `a < b`: lexicographic on code points. -/
def lexLtChars : List Char → List Char → Bool
  | [], [] => false
  | [], _ :: _ => true
  | _ :: _, [] => false
  | a :: as, b :: bs => if a < b then true else if a = b then lexLtChars as bs else false

/-- Python `a < b` on strings. -/
def pyStrLt (a b : String) : Bool := lexLtChars a.data b.data

/-- Insertion step of a sort by Python string comparison. -/
def pyInsert (x : String) : List String → List String
  | [] => [x]
  | y :: ys => if pyStrLt y x then y :: pyInsert x ys else x :: y :: ys

/-- Python `sorted(l)` for a list of strings: sorts by code-point order.  For
equal strings stability is unobservable, so any correct sort yields Python's
output sequence. -/
def pySorted (l : List String) : List String := l.foldr pyInsert []

/-- Python `sorted(set(l))`: duplicates are removed by the set, then the
distinct members are sorted (source line 212 applies `sorted` to the set
returned by `whl.dependencies`). -/
def pySortedSet (l : List String) : List String := pySorted l.dedup

/-- Lower-case hexadecimal digit, as emitted by Python `json.dumps` escapes. -/
def hexDigitChar (n : Nat) : Char :=
  if n < 10 then Char.ofNat (48 + n) else Char.ofNat (87 + n)

/-- Four-digit lower-case hexadecimal rendering of a code point below 2^16. -/
def hex4 (n : Nat) : String :=
  ⟨[hexDigitChar (n / 4096 % 16), hexDigitChar (n / 256 % 16),
    hexDigitChar (n / 16 % 16), hexDigitChar (n % 16)]⟩

/-- Escaping of one character inside a JSON string literal, following Python
`json.dumps` with its default `ensure_ascii=True` (non-ASCII code points are
`\uXXXX`-escaped; the model covers the basic multilingual plane). -/
def jsonEscapeChar (c : Char) : String :=
  if c = '\\' then "\\\\"
  else if c = '\"' then "\\\""
  else if c = Char.ofNat 10 then "\\n"
  else if c = Char.ofNat 9 then "\\t"
  else if c = Char.ofNat 13 then "\\r"
  else if c = Char.ofNat 8 then "\\b"
  else if c = Char.ofNat 12 then "\\f"
  else if c.toNat < 32 then "\\u" ++ hex4 c.toNat
  else if c.toNat ≥ 128 then "\\u" ++ hex4 c.toNat
  else String.singleton c

/-- Python `json.dumps` of a string. -/
def pyJsonStr (s : String) : String :=
  "\"" ++ String.join (s.data.map jsonEscapeChar) ++ "\""

/-- Python `json.dumps` of a list of strings: elements separated by ", "
(the default separator), as used at source line 58 for the data-exclusion
patterns. -/
def pyJsonDumps (l : List String) : String :=
  "[" ++ String.intercalate ", " (l.map pyJsonStr) ++ "]"

/-- Source line 11: `WHEEL_FILE_LABEL = "whl"`. -/
def WHEEL_FILE_LABEL : String := "whl"

/-- Source line 12: `PY_LIBRARY_LABEL = "pkg"`. -/
def PY_LIBRARY_LABEL : String := "pkg"

/-- Source lines 107-124: `sanitise_name(name, prefix)` returns
`prefix + name.replace("-", "_").replace(".", "_").lower()` (the Python
parameter `prefix` is rendered `pfx` here). -/
def sanitise_name (name : String) (pfx : String) : String :=
  pfx ++ pyLower (pyReplaceChar '.' '_' (pyReplaceChar '-' '_' name))

/-- Source lines 150-151: `'"//%s"' % sanitise_name(whl_name, prefix)`. -/
def sanitised_library_label (whl_name : String) (pfx : String) : String :=
  "\"//" ++ sanitise_name whl_name pfx ++ "\""

/-- Source lines 154-155: `'"//%s:%s"' % (sanitise_name(whl_name, prefix), WHEEL_FILE_LABEL)`. -/
def sanitised_file_label (whl_name : String) (pfx : String) : String :=
  "\"//" ++ sanitise_name whl_name pfx ++ ":" ++ WHEEL_FILE_LABEL ++ "\""

/-- Source lines 158-159: `_whl_name_to_repo_root` (the leading underscore of
the Python name is dropped), `"@{}//".format(sanitise_name(whl_name, repo_prefix))`. -/
def whl_name_to_repo_root (whl_name : String) (repo_pfx : String) : String :=
  "@" ++ sanitise_name whl_name repo_pfx ++ "//"

/-- Source lines 162-163: `'"{}:{}"'.format(_whl_name_to_repo_root(...), PY_LIBRARY_LABEL)`. -/
def sanitised_repo_library_label (whl_name : String) (repo_pfx : String) : String :=
  "\"" ++ whl_name_to_repo_root whl_name repo_pfx ++ ":" ++ PY_LIBRARY_LABEL ++ "\""

/-- Source lines 166-167: `'"{}:{}"'.format(_whl_name_to_repo_root(...), WHEEL_FILE_LABEL)`. -/
def sanitised_repo_file_label (whl_name : String) (repo_pfx : String) : String :=
  "\"" ++ whl_name_to_repo_root whl_name repo_pfx ++ ":" ++ WHEEL_FILE_LABEL ++ "\""

/-- Source lines 15-62: `generate_build_file_contents`.  The body is the
`textwrap.dedent`-ed template of lines 35-55 with the `str.format`
substitutions applied: `{whl_file_label}` becomes `WHEEL_FILE_LABEL`,
`{whl_file_deps}` and `{dependencies}` become the comma-joined label lists,
`{data_exclude}` becomes `json.dumps` of the fixed base patterns followed by
the caller-supplied `pip_data_exclude`, and `{name}` becomes the target name. -/
def generate_build_file_contents (name : String) (dependencies : List String)
    (whl_file_deps : List String) (pip_data_exclude : List String) : String :=
  let data_exclude : List String :=
    ["*.whl", "**/*.py", "**/* *", "BUILD.bazel", "WORKSPACE"] ++ pip_data_exclude
  "package(default_visibility = [\"//visibility:public\"])\n\nload(\"@rules_python//python:defs.bzl\", \"py_library\")\n\nfilegroup(\n    name=\""
    ++ WHEEL_FILE_LABEL
    ++ "\",\n    srcs=glob([\"*.whl\"]),\n    data=["
    ++ String.intercalate "," whl_file_deps
    ++ "]\n)\n\npy_library(\n    name = \""
    ++ name
    ++ "\",\n    srcs = glob([\"**/*.py\"], allow_empty = True),\n    data = glob([\"**/*\"], exclude="
    ++ pyJsonDumps data_exclude
    ++ "),\n    # This makes this directory a top-level in the python import\n    # search path for anything that depends on this.\n    imports = [\".\"],\n    deps = ["
    ++ String.intercalate "," dependencies
    ++ "],\n)\n"

/-- Source lines 65-104: `generate_requirements_file_contents`.  Targets are
sorted (`sorted(targets)`, duplicates kept), joined with "," for
`all_requirements`; for `all_whl_requirements` each sorted target is stripped
of surrounding double quotes, suffixed `:whl` and re-quoted.  The body is the
dedent-ed template of lines 85-99 with the substitutions applied. -/
def generate_requirements_file_contents (repo_name : String) (targets : List String) : String :=
  let sorted_targets := pySorted targets
  let requirement_labels := String.intercalate "," sorted_targets
  let whl_requirement_labels := String.intercalate ","
    (sorted_targets.map (fun target => "\"" ++ pyStripChar '\"' target ++ ":whl\""))
  "all_requirements = ["
    ++ requirement_labels
    ++ "]\n\nall_whl_requirements = ["
    ++ whl_requirement_labels
    ++ "]\n\ndef requirement(name):\n   name_key = name.replace(\"-\", \"_\").replace(\".\", \"_\").lower()\n   return \""
    ++ repo_name
    ++ "//pypi__\" + name_key\n\ndef whl_requirement(name):\n    return requirement(name) + \":whl\"\n\ndef install_deps():\n    fail(\"install_deps() only works if you are creating an incremental repo. Did you mean to use pip_install_incremental()?\")\n"

/-- The name transform performed by the Starlark `requirement(name)` helper
that `generate_requirements_file_contents` emits (source lines 90-92):
`name.replace("-", "_").replace(".", "_").lower()` prefixed by `pypi__`. -/
def requirement_name_transform (name : String) : String :=
  "pypi__" ++ pyLower (pyReplaceChar '.' '_' (pyReplaceChar '-' '_' name))

/-- Character-level normal form used to state claim C4: separators "-" and "."
become "_", letters are lower-cased. -/
def normChar (c : Char) : Char :=
  Char.toLower (if c = '-' || c = '.' then '_' else c)

/-- File-system-operation errors surfaced by the orchestrator (Python
`FileExistsError` from `os.mkdir`, `FileNotFoundError` from `os.remove` /
`shutil.copy`). -/
inductive FSError where
  | fileExists (p : String)
  | notFound (p : String)
deriving DecidableEq, Repr

/-- File-system state: existing files (path with content) and directories. -/
structure FS where
  files : List (String × String)
  dirs : List String
deriving DecidableEq, Repr

def FS.hasFile (fs : FS) (p : String) : Bool :=
  (fs.files.map Prod.fst).contains p

def FS.hasDir (fs : FS) (p : String) : Bool :=
  fs.dirs.contains p

def FS.readFile (fs : FS) (p : String) : Option String :=
  fs.files.lookup p

/-- Writing a file creates or silently overwrites it. -/
def FS.writeFile (fs : FS) (p : String) (c : String) : FS :=
  { fs with files := (p, c) :: fs.files.filter (fun e => !(e.1 == p)) }

/-- Python `os.mkdir`: raises `FileExistsError` when the path already exists
(as a directory or as a file). -/
def FS.mkdir (fs : FS) (d : String) : Except FSError FS :=
  if fs.hasDir d || fs.hasFile d then .error (.fileExists d)
  else .ok { fs with dirs := d :: fs.dirs }

/-- Python `os.path.basename`: the part after the last "/". -/
def basename (p : String) : String :=
  ⟨p.data.foldl (fun acc c => if c = '/' then [] else acc ++ [c]) []⟩

/-- Python `shutil.copy(src, dst_dir)` with a directory destination: copies
the file to `dst_dir/basename(src)`; fails when the source is missing. -/
def FS.copy (fs : FS) (src : String) (dstDir : String) : Except FSError FS :=
  match fs.readFile src with
  | none => .error (.notFound src)
  | some c => .ok (fs.writeFile (dstDir ++ "/" ++ basename src) c)

/-- Python `os.remove`: deletes the file, raising when it does not exist. -/
def FS.removeFile (fs : FS) (p : String) : Except FSError FS :=
  if fs.hasFile p then
    .ok { fs with files := fs.files.filter (fun e => !(e.1 == p)) }
  else .error (.notFound p)

/-- Wheel metadata accessor.  Modelled from the spec: section 6 declares the
collaborator interface `name`, `path`, `dependencies(extras) -> set<string>`,
`unzip(target_dir)`; the implementing module
`python/pip_install/extract_wheels/lib/wheel.py` is outside the extract.
`contents` lists the archive members `unzip` materializes, and `deps` is the
extras-aware dependency-set function. -/
structure Wheel where
  name : String
  path : String
  contents : List (String × String)
  deps : List String → List String

/-- The collaborator `unzip` call: materializes every archive member under the
target directory. -/
def Wheel.unzip (whl : Wheel) (dir : String) (fs : FS) : FS :=
  whl.contents.foldl (fun acc e => acc.writeFile (dir ++ "/" ++ e.1) e.2) fs

/-- Trace of the operations `extract_wheel` performs, in order.  The two
collaborator rewriting passes are recorded as single events since their
file-system effect lives in the function parameters. -/
inductive Event where
  | mkdirE (d : String)
  | copyE (src : String) (dstDir : String)
  | unzipE (dir : String)
  | spreadPurelibE (dir : String)
  | setupNamespacePkgE (dir : String)
  | writeFileE (p : String)
  | removeE (p : String)
deriving DecidableEq, Repr

def Event.isSetupNs : Event → Bool
  | .setupNamespacePkgE _ => true
  | _ => false

def Event.isRemove : Event → Bool
  | .removeE _ => true
  | _ => false

/-- Source line 211: `extras[whl.name] if whl.name in extras else set()` —
membership test on the exact, unsanitised distribution name. -/
def extras_requested_of (extras : List (String × List String)) (name : String) : List String :=
  if (extras.map Prod.fst).contains name then (extras.lookup name).getD [] else []

/-- Source line 212: `whl_deps = sorted(whl.dependencies(extras_requested))`. -/
def wheel_dep_names (whl : Wheel) (extras : List (String × List String)) : List String :=
  pySortedSet (whl.deps (extras_requested_of extras whl.name))

/-- Source lines 214-224: the library-dependency labels, repository-qualified
when incremental, flat otherwise. -/
def dep_labels (incremental : Bool) (whl_deps : List String) (pfx : String) : List String :=
  if incremental then whl_deps.map (fun d => sanitised_repo_library_label d pfx)
  else whl_deps.map (fun d => sanitised_library_label d pfx)

/-- Source lines 218-227: the wheel-file-dependency labels, repository-qualified
when incremental, flat otherwise. -/
def whl_file_dep_labels (incremental : Bool) (whl_deps : List String) (pfx : String) : List String :=
  if incremental then whl_deps.map (fun d => sanitised_repo_file_label d pfx)
  else whl_deps.map (fun d => sanitised_file_label d pfx)

/-- Source lines 170-241: `extract_wheel`.  Mirrors the source sequence:
choose the target directory ("." when incremental, else `mkdir` a fresh
sanitised-name directory and copy the archive into it), unzip, spread purelib,
conditionally normalize namespace packages, compute sorted dependency labels,
write `BUILD.bazel`, delete the original archive path unless incremental, and
return `"//" + directory`.  `spread_purelib` and `ns_compat` are the external
collaborator passes (spec sections 4.2 and 4.3); the Python parameter
`repo_prefix` is rendered `repo_pfx`. -/
def extract_wheel (spread_purelib ns_compat : String → FS → FS) (whl : Wheel)
    (extras : List (String × List String)) (pip_data_exclude : List String)
    (enable_implicit_namespace_pkgs : Bool) (repo_pfx : String) (incremental : Bool)
    (fs0 : FS) : Except FSError (FS × List Event × String) :=
  match (if incremental then Except.ok (".", fs0, ([] : List Event))
         else
           match fs0.mkdir (sanitise_name whl.name repo_pfx) with
           | .error e => .error e
           | .ok fs1 =>
             match fs1.copy whl.path (sanitise_name whl.name repo_pfx) with
             | .error e => .error e
             | .ok fs2 =>
               Except.ok (sanitise_name whl.name repo_pfx, fs2,
                 [Event.mkdirE (sanitise_name whl.name repo_pfx),
                  Event.copyE whl.path (sanitise_name whl.name repo_pfx)])) with
  | .error e => .error e
  | .ok (directory, fs2, tr0) =>
    let fs4 := spread_purelib directory (whl.unzip directory fs2)
    let tr1 := tr0 ++ [Event.unzipE directory, Event.spreadPurelibE directory]
    let fs5 := if !enable_implicit_namespace_pkgs then ns_compat directory fs4 else fs4
    let tr2 := if !enable_implicit_namespace_pkgs then
        tr1 ++ [Event.setupNamespacePkgE directory] else tr1
    let whl_deps := wheel_dep_names whl extras
    let contents := generate_build_file_contents
        (if incremental then PY_LIBRARY_LABEL else sanitise_name whl.name repo_pfx)
        (dep_labels incremental whl_deps repo_pfx)
        (whl_file_dep_labels incremental whl_deps repo_pfx)
        pip_data_exclude
    let fs6 := fs5.writeFile (directory ++ "/BUILD.bazel") contents
    let tr3 := tr2 ++ [Event.writeFileE (directory ++ "/BUILD.bazel")]
    if incremental then Except.ok (fs6, tr3, "//" ++ directory)
    else
      match fs6.removeFile whl.path with
      | .error e => .error e
      | .ok fs7 => Except.ok (fs7, tr3 ++ [Event.removeE whl.path], "//" ++ directory)

/-- Whether an extraction run completed without a file-system error. -/
def extractOk (r : Except FSError (FS × List Event × String)) : Bool :=
  match r with
  | .ok _ => true
  | .error _ => false

/-- The package address a completed run returned. -/
def extractAddr (r : Except FSError (FS × List Event × String)) : Option String :=
  match r with
  | .ok (_, _, addr) => some addr
  | .error _ => none

/-- The operation trace of a completed run. -/
def extractTrace (r : Except FSError (FS × List Event × String)) : List Event :=
  match r with
  | .ok (_, tr, _) => tr
  | .error _ => []

/-- Whether the final file system of a completed run contains a file. -/
def extractHasFile (r : Except FSError (FS × List Event × String)) (p : String) : Bool :=
  match r with
  | .ok (fs, _, _) => fs.hasFile p
  | .error _ => false

/-- The content of a file in the final file system of a completed run. -/
def extractReadFile (r : Except FSError (FS × List Event × String)) (p : String) : Option String :=
  match r with
  | .ok (fs, _, _) => fs.readFile p
  | .error _ => none

/-- Identity collaborator pass, used to instantiate the external purelib and
namespace passes in concrete runs. -/
def idPass : String → FS → FS := fun _ fs => fs

/-- Concrete wheel from the spec's standalone example:
`sample-1.0-py3-none-any.whl` with distribution name `sample`. -/
def wheelSample : Wheel :=
  { name := "sample"
    path := "sample-1.0-py3-none-any.whl"
    contents := [("sample/core.py", "x = 1")]
    deps := fun _ => [] }

/-- Initial file system holding only the sample archive. -/
def fsSample : FS :=
  { files := [("sample-1.0-py3-none-any.whl", "WHEELDATA")], dirs := [] }

/-- Initial file system in which the standalone target directory of
`wheelSample` under prefix `pypi__` already exists. -/
def fsSampleDirTaken : FS :=
  { files := [("sample-1.0-py3-none-any.whl", "WHEELDATA")], dirs := ["pypi__sample"] }

/-- Concrete wheel whose dependency set is the spec's example `{"numpy", "Six"}`. -/
def wheelDemoDeps : Wheel :=
  { name := "demo"
    path := "demo-1.0-py3-none-any.whl"
    contents := []
    deps := fun _ => ["numpy", "Six"] }

/-- Initial file system holding only the demo archive. -/
def fsDemoDeps : FS :=
  { files := [("demo-1.0-py3-none-any.whl", "D")], dirs := [] }

/-- Concrete wheel used for the extras-lookup claim: a wheel whose dependency
function is sensitive to the requested extras. -/
def wheelExtras : Wheel :=
  { name := "sample"
    path := "sample-1.0-py3-none-any.whl"
    contents := []
    deps := fun extras => if extras.isEmpty then ["base_dep"] else ["base_dep", "extra_dep"] }

theorem sanitise_name_eq_normal (name pfx : String) :
    sanitise_name name pfx = pfx ++ strMap normChar name := by
  have hc : ∀ c : Char,
      Char.toLower (if (if c = '-' then '_' else c) = '.' then '_'
        else (if c = '-' then '_' else c)) = normChar c := by
    intro c
    by_cases h1 : c = '-'
    · subst h1; decide
    · by_cases h2 : c = '.'
      · subst h2; decide
      · simp [normChar, h1, h2]
  unfold sanitise_name pyLower pyReplaceChar strMap
  apply congrArg (pfx ++ ·)
  apply congrArg String.mk
  rw [List.map_map, List.map_map]
  exact List.map_congr_left (fun c _ => hc c)

theorem lookup_filter_ne (l : List (String × String)) (x p : String) (h : ¬ p = x) :
    (l.filter (fun e => !(e.1 == x))).lookup p = l.lookup p := by
  induction l with
  | nil => rfl
  | cons e es ih =>
    by_cases hx : e.1 = x
    · have hp : ¬ p = e.1 := by rw [hx]; exact h
      have hb : (p == x) = false := beq_eq_false_iff_ne.mpr h
      simp [List.filter_cons, hx, List.lookup, hp, hb, ih]
    · by_cases hp : p = e.1 <;> simp [List.filter_cons, hx, List.lookup, hp, ih]

theorem contains_fst_filter (l : List (String × String)) (x : String) :
    ((l.filter (fun e => !(e.1 == x))).map Prod.fst).contains x = false := by
  induction l with
  | nil => rfl
  | cons e es ih =>
    by_cases hx : e.1 = x
    · simp [List.filter_cons, hx, ih]
    · have : ¬ x = e.1 := fun hh => hx hh.symm
      simp [List.filter_cons, hx, List.contains_cons, this, ih]

theorem readFile_writeFile_self (fs : FS) (p c : String) :
    (fs.writeFile p c).readFile p = some c := by
  simp [FS.writeFile, FS.readFile, List.lookup]

theorem removeFile_ok_inv (fs fs' : FS) (p : String) (h : fs.removeFile p = .ok fs') :
    fs' = { files := fs.files.filter (fun e => !(e.1 == p)), dirs := fs.dirs } := by
  unfold FS.removeFile at h
  split at h
  · injection h with h7; exact h7.symm
  · cases h

/-- C4: `sanitise_name` returns the prefix prepended to the name with every
hyphen and every dot replaced by underscore and the result lower-cased (a pure
total function, hence deterministic with no I/O and no failure path), so any
two distribution names with the same separator/case normal form are mapped to
the identical identifier for the same prefix. -/
theorem spec_C4 (pfx n₁ n₂ : String) :
    sanitise_name n₁ pfx = pfx ++ strMap normChar n₁ ∧
    (strMap normChar n₁ = strMap normChar n₂ →
      sanitise_name n₁ pfx = sanitise_name n₂ pfx) := by
  refine ⟨sanitise_name_eq_normal n₁ pfx, fun h => ?_⟩
  rw [sanitise_name_eq_normal n₁ pfx, sanitise_name_eq_normal n₂ pfx, h]

/-- Witness for C4 at the concrete names `Foo-Bar` and `foo.bar`, which differ
only by case and hyphen/dot punctuation. -/
theorem spec_C4_witness :
    strMap normChar "Foo-Bar" = strMap normChar "foo.bar" ∧
    sanitise_name "Foo-Bar" "pypi__" = sanitise_name "foo.bar" "pypi__" :=
  ⟨by decide, (spec_C4 "pypi__" "Foo-Bar" "foo.bar").2 (by decide)⟩

/-- C5: the four address builders produce exactly the two flat-style quoted
labels `"//<sanitized-name>"` and `"//<sanitized-name>:whl"` and the two
repository-qualified quoted labels `"@<sanitized-name>//:pkg"` (fixed,
non-name-derived inner target name) and `"@<sanitized-name>//:whl"`, for
every wheel name and prefix. -/
theorem spec_C5 (n pfx : String) :
    sanitised_library_label n pfx = "\"//" ++ sanitise_name n pfx ++ "\"" ∧
    sanitised_file_label n pfx = "\"//" ++ sanitise_name n pfx ++ ":whl\"" ∧
    sanitised_repo_library_label n pfx = "\"@" ++ sanitise_name n pfx ++ "//:pkg\"" ∧
    sanitised_repo_file_label n pfx = "\"@" ++ sanitise_name n pfx ++ "//:whl\"" := by
  refine ⟨rfl, ?_, ?_, ?_⟩ <;>
    simp only [sanitised_file_label, sanitised_repo_library_label,
      sanitised_repo_file_label, whl_name_to_repo_root, WHEEL_FILE_LABEL,
      PY_LIBRARY_LABEL, String.append_assoc] <;> rfl

/-- C6: `generate_build_file_contents` returns text of exactly the declared
shape: the public default-visibility package line, the `py_library` load, a
filegroup named "whl" with `srcs=glob(["*.whl"])` and data equal to the given
archive-dependency labels, and a `py_library` named by the target name with
`srcs = glob(["**/*.py"], allow_empty = True)` (so zero `.py` files cannot
fail), data equal to `glob(["**/*"])` excluding exactly the JSON array of
`"*.whl"`, `"**/*.py"`, `"**/* *"`, `"BUILD.bazel"`, `"WORKSPACE"` followed by
the caller-supplied patterns, `imports = ["."]`, and deps equal to the given
dependency labels; being a total function, generation never fails. -/
theorem spec_C6 (name : String) (dependencies whl_file_deps pip_data_exclude : List String) :
    generate_build_file_contents name dependencies whl_file_deps pip_data_exclude =
      "package(default_visibility = [\"//visibility:public\"])\n\nload(\"@rules_python//python:defs.bzl\", \"py_library\")\n\nfilegroup(\n    name=\""
        ++ WHEEL_FILE_LABEL
        ++ "\",\n    srcs=glob([\"*.whl\"]),\n    data=["
        ++ String.intercalate "," whl_file_deps
        ++ "]\n)\n\npy_library(\n    name = \""
        ++ name
        ++ "\",\n    srcs = glob([\"**/*.py\"], allow_empty = True),\n    data = glob([\"**/*\"], exclude="
        ++ pyJsonDumps (["*.whl", "**/*.py", "**/* *", "BUILD.bazel", "WORKSPACE"] ++ pip_data_exclude)
        ++ "),\n    # This makes this directory a top-level in the python import\n    # search path for anything that depends on this.\n    imports = [\".\"],\n    deps = ["
        ++ String.intercalate "," dependencies
        ++ "],\n)\n" ∧
    WHEEL_FILE_LABEL = "whl" ∧
    pyJsonDumps ["*.whl", "**/*.py", "**/* *", "BUILD.bazel", "WORKSPACE"] =
      "[\"*.whl\", \"**/*.py\", \"**/* *\", \"BUILD.bazel\", \"WORKSPACE\"]" :=
  ⟨rfl, rfl, by decide⟩

/-- C10: `generate_requirements_file_contents` emits `all_requirements` as the
targets in Python's sorted order, `all_whl_requirements` as each sorted target
with its surrounding double quotes stripped, `:whl` appended, and re-quoted,
and a `requirement(name)` helper whose name transform agrees with
`sanitise_name` at prefix `pypi__`. -/
theorem spec_C10 (repo_name : String) (targets : List String) :
    generate_requirements_file_contents repo_name targets =
      "all_requirements = ["
        ++ String.intercalate "," (pySorted targets)
        ++ "]\n\nall_whl_requirements = ["
        ++ String.intercalate ","
            ((pySorted targets).map (fun target => "\"" ++ pyStripChar '\"' target ++ ":whl\""))
        ++ "]\n\ndef requirement(name):\n   name_key = name.replace(\"-\", \"_\").replace(\".\", \"_\").lower()\n   return \""
        ++ repo_name
        ++ "//pypi__\" + name_key\n\ndef whl_requirement(name):\n    return requirement(name) + \":whl\"\n\ndef install_deps():\n    fail(\"install_deps() only works if you are creating an incremental repo. Did you mean to use pip_install_incremental()?\")\n" ∧
    (∀ n : String, requirement_name_transform n = sanitise_name n "pypi__") :=
  ⟨rfl, fun _ => rfl⟩

/-- C7 (counterexample): for the wheel whose dependency names are
`{"numpy", "Six"}` and prefix `pypi__`, the dependency-label list that
`extract_wheel` renders into the build file is
`["//pypi__six", "//pypi__numpy"]` (Python sorts the raw names
case-sensitively, placing `Six` first), which is NOT in sorted label order —
sorting it would put `"//pypi__numpy"` first — refuting the claim that the
labels appear in sorted order `(pypi__numpy, pypi__six)`. -/
theorem spec_C7_counterexample :
    dep_labels false (wheel_dep_names wheelDemoDeps []) "pypi__" =
      ["\"//pypi__six\"", "\"//pypi__numpy\""] ∧
    pySorted ["\"//pypi__six\"", "\"//pypi__numpy\""] =
      ["\"//pypi__numpy\"", "\"//pypi__six\""] ∧
    dep_labels false (wheel_dep_names wheelDemoDeps []) "pypi__" ≠
      pySorted (dep_labels false (wheel_dep_names wheelDemoDeps []) "pypi__") := by
  refine ⟨by decide, by decide, by decide⟩

/-- C7 (amended): for the wheel with dependency names `{"numpy", "Six"}` and
prefix `pypi__`, the build-description text produced by `extract_wheel`
carries the dependency labels sanitized to `pypi__six` and `pypi__numpy`, in
the order of the case-sensitively sorted raw names (`Six` before `numpy`),
each appearing exactly once in the library deps list and exactly once, in the
`:whl`-suffixed archive form, in the filegroup data list. -/
theorem spec_C7 :
    dep_labels false (wheel_dep_names wheelDemoDeps []) "pypi__" =
      ["\"//pypi__six\"", "\"//pypi__numpy\""] ∧
    whl_file_dep_labels false (wheel_dep_names wheelDemoDeps []) "pypi__" =
      ["\"//pypi__six:whl\"", "\"//pypi__numpy:whl\""] ∧
    wheel_dep_names wheelDemoDeps [] = pySorted ["numpy", "Six"] ∧
    (dep_labels false (wheel_dep_names wheelDemoDeps []) "pypi__").count "\"//pypi__six\"" = 1 ∧
    (dep_labels false (wheel_dep_names wheelDemoDeps []) "pypi__").count "\"//pypi__numpy\"" = 1 ∧
    (whl_file_dep_labels false (wheel_dep_names wheelDemoDeps []) "pypi__").count "\"//pypi__six:whl\"" = 1 ∧
    (whl_file_dep_labels false (wheel_dep_names wheelDemoDeps []) "pypi__").count "\"//pypi__numpy:whl\"" = 1 ∧
    extractReadFile
        (extract_wheel idPass idPass wheelDemoDeps [] [] true "pypi__" false fsDemoDeps)
        "pypi__demo/BUILD.bazel" =
      some (generate_build_file_contents "pypi__demo"
        ["\"//pypi__six\"", "\"//pypi__numpy\""]
        ["\"//pypi__six:whl\"", "\"//pypi__numpy:whl\""] []) := by
  refine ⟨by decide, by decide, by decide, by decide, by decide, by decide, by decide, ?_⟩
  rfl

/-- C1 (counterexample): calling `extract_wheel` with
`enable_implicit_namespace_pkgs = true` completes successfully WITHOUT running
the namespace-package normalizer, refuting the claim that the normalizer runs
exactly when the caller-supplied boolean is true. -/
theorem spec_C1_counterexample :
    extractOk (extract_wheel idPass idPass wheelSample [] [] true "pypi__" false fsSample) = true ∧
    (extractTrace (extract_wheel idPass idPass wheelSample [] [] true "pypi__" false fsSample)).any
      Event.isSetupNs = false :=
  ⟨by decide, by decide⟩

/-- C1 (amended): in every completed call to `extract_wheel` the
namespace-package normalizer (`setup_namespace_pkg_compatibility`) is executed
exactly when the caller-supplied boolean `enable_implicit_namespace_pkgs` is
FALSE — the flag enables keeping implicit namespace packages as unpacked,
i.e. it disables normalization — and is skipped when that boolean is true. -/
theorem spec_C1 (sp nsf : String → FS → FS) (whl : Wheel)
    (extras : List (String × List String)) (pde : List String) (en : Bool) (pfx : String)
    (inc : Bool) (fs0 : FS)
    (h : extractOk (extract_wheel sp nsf whl extras pde en pfx inc fs0) = true) :
    (extractTrace (extract_wheel sp nsf whl extras pde en pfx inc fs0)).any Event.isSetupNs = !en := by
  unfold extract_wheel at h ⊢
  cases inc with
  | true =>
    cases en <;> simp [extractTrace, Event.isSetupNs]
  | false =>
    cases hm : fs0.mkdir (sanitise_name whl.name pfx) with
    | error e => rw [hm] at h; simp [extractOk] at h
    | ok fs1 =>
      rw [hm] at h
      simp only [Bool.false_eq_true, if_false] at h ⊢
      cases hc : fs1.copy whl.path (sanitise_name whl.name pfx) with
      | error e => rw [hc] at h; simp [extractOk] at h
      | ok fs2 =>
        rw [hc] at h
        dsimp only at h ⊢
        split at h
        · simp [extractOk] at h
        · rename_i fs7 heq
          cases en <;> simp [extractTrace, Event.isSetupNs, List.any_append]

/-- Witness for C1 at a concrete run with the flag false: the run completes
and the normalizer event is in the trace. -/
theorem spec_C1_witness :
    extractOk (extract_wheel idPass idPass wheelSample [] [] false "pypi__" false fsSample) = true ∧
    (extractTrace (extract_wheel idPass idPass wheelSample [] [] false "pypi__" false fsSample)).any
      Event.isSetupNs = !false :=
  ⟨by decide, spec_C1 idPass idPass wheelSample [] [] false "pypi__" false fsSample (by decide)⟩

/-- C2 (counterexample): after a successful standalone extraction of the
sample wheel, the COPY of the archive placed inside the target directory
(`pypi__sample/sample-1.0-py3-none-any.whl`) still exists — it is not
deleted, refuting the claim — while the file at the original archive path
(`sample-1.0-py3-none-any.whl`) is the one that was deleted. -/
theorem spec_C2_counterexample :
    extractOk (extract_wheel idPass idPass wheelSample [] [] true "pypi__" false fsSample) = true ∧
    extractHasFile (extract_wheel idPass idPass wheelSample [] [] true "pypi__" false fsSample)
      "pypi__sample/sample-1.0-py3-none-any.whl" = true ∧
    extractHasFile (extract_wheel idPass idPass wheelSample [] [] true "pypi__" false fsSample)
      "sample-1.0-py3-none-any.whl" = false :=
  ⟨by decide, by decide, by decide⟩

/-- C2 (amended): in standalone (non-incremental) mode a completed
`extract_wheel` run deletes exactly one file, the ORIGINAL archive at the
caller-supplied path `whl.path` (not the copy placed inside the target
directory, which remains to back the `*.whl` glob of the generated
filegroup); in incremental mode no file is removed at all. -/
theorem spec_C2 (sp nsf : String → FS → FS) (whl : Wheel)
    (extras : List (String × List String)) (pde : List String) (en : Bool) (pfx : String)
    (inc : Bool) (fs0 : FS)
    (h : extractOk (extract_wheel sp nsf whl extras pde en pfx inc fs0) = true) :
    (extractTrace (extract_wheel sp nsf whl extras pde en pfx inc fs0)).filter Event.isRemove =
      (if inc then [] else [Event.removeE whl.path]) := by
  unfold extract_wheel at h ⊢
  cases inc with
  | true =>
    cases en <;> simp [extractTrace, Event.isRemove]
  | false =>
    cases hm : fs0.mkdir (sanitise_name whl.name pfx) with
    | error e => rw [hm] at h; simp [extractOk] at h
    | ok fs1 =>
      rw [hm] at h
      simp only [Bool.false_eq_true, if_false] at h ⊢
      cases hc : fs1.copy whl.path (sanitise_name whl.name pfx) with
      | error e => rw [hc] at h; simp [extractOk] at h
      | ok fs2 =>
        rw [hc] at h
        dsimp only at h ⊢
        split at h
        · simp [extractOk] at h
        · rename_i fs7 heq
          cases en <;> simp [extractTrace, Event.isRemove, List.filter_append]

/-- Witness for C2 at a concrete completed standalone run: the only remove
event is for the original archive path. -/
theorem spec_C2_witness :
    extractOk (extract_wheel idPass idPass wheelSample [] [] true "pypi__" false fsSample) = true ∧
    (extractTrace (extract_wheel idPass idPass wheelSample [] [] true "pypi__" false fsSample)).filter
        Event.isRemove =
      (if false then [] else [Event.removeE wheelSample.path]) :=
  ⟨by decide, spec_C2 idPass idPass wheelSample [] [] true "pypi__" false fsSample (by decide)⟩

/-- C3: a completed `extract_wheel` run returns the package address `"//"`
followed by the target directory — the sanitized distribution name in
standalone mode, `"."` (address `"//."`) in incremental mode; in standalone
mode a `BUILD.bazel` file exists inside that directory with the sanitized
distribution name as declared library target name and the original archive
path no longer exists in the final file system, while in incremental mode the
declared library target name is the fixed constant `PY_LIBRARY_LABEL`
(`"pkg"`) regardless of distribution name. -/
theorem spec_C3 (sp nsf : String → FS → FS) (whl : Wheel)
    (extras : List (String × List String)) (pde : List String) (en : Bool) (pfx : String)
    (inc : Bool) (fs0 : FS)
    (h : extractOk (extract_wheel sp nsf whl extras pde en pfx inc fs0) = true)
    (hne : whl.path ≠ sanitise_name whl.name pfx ++ "/BUILD.bazel") :
    extractAddr (extract_wheel sp nsf whl extras pde en pfx inc fs0) =
      some ("//" ++ (if inc then "." else sanitise_name whl.name pfx)) ∧
    (inc = false →
      extractHasFile (extract_wheel sp nsf whl extras pde en pfx inc fs0) whl.path = false ∧
      extractReadFile (extract_wheel sp nsf whl extras pde en pfx inc fs0)
          (sanitise_name whl.name pfx ++ "/BUILD.bazel") =
        some (generate_build_file_contents (sanitise_name whl.name pfx)
          (dep_labels false (wheel_dep_names whl extras) pfx)
          (whl_file_dep_labels false (wheel_dep_names whl extras) pfx) pde)) ∧
    (inc = true →
      extractReadFile (extract_wheel sp nsf whl extras pde en pfx inc fs0) "./BUILD.bazel" =
        some (generate_build_file_contents PY_LIBRARY_LABEL
          (dep_labels true (wheel_dep_names whl extras) pfx)
          (whl_file_dep_labels true (wheel_dep_names whl extras) pfx) pde)) := by
  unfold extract_wheel at h ⊢
  cases inc with
  | true =>
    refine ⟨by simp [extractAddr], fun hh => by simp at hh, fun _ => ?_⟩
    simp only [extractReadFile, if_true]
    exact readFile_writeFile_self _ _ _
  | false =>
    cases hm : fs0.mkdir (sanitise_name whl.name pfx) with
    | error e => rw [hm] at h; simp [extractOk] at h
    | ok fs1 =>
      rw [hm] at h
      simp only [Bool.false_eq_true, if_false] at h ⊢
      cases hc : fs1.copy whl.path (sanitise_name whl.name pfx) with
      | error e => rw [hc] at h; simp [extractOk] at h
      | ok fs2 =>
        rw [hc] at h
        dsimp only at h ⊢
        split at h
        · simp [extractOk] at h
        · rename_i fs7 heq
          refine ⟨by simp [extractAddr], fun _ => ?_, fun hh => by simp at hh⟩
          have h7 := removeFile_ok_inv _ _ _ heq
          subst h7
          constructor
          · simp only [extractHasFile, FS.hasFile]
            exact contains_fst_filter _ _
          · simp only [extractReadFile, FS.readFile]
            rw [lookup_filter_ne _ _ _ (fun hh => hne hh.symm)]
            exact readFile_writeFile_self _ _ _

/-- Witness for C3 at the spec's concrete example (archive
`sample-1.0-py3-none-any.whl`, prefix `pypi__`), applied in both modes: the
standalone address is `//pypi__sample`, `pypi__sample/BUILD.bazel` exists and
the original archive is gone; the incremental address is `//.` with library
target name `pkg`. -/
theorem spec_C3_witness :
    extractOk (extract_wheel idPass idPass wheelSample [] [] true "pypi__" false fsSample) = true ∧
    extractOk (extract_wheel idPass idPass wheelSample [] [] true "pypi__" true fsSample) = true ∧
    wheelSample.path ≠ sanitise_name wheelSample.name "pypi__" ++ "/BUILD.bazel" ∧
    extractAddr (extract_wheel idPass idPass wheelSample [] [] true "pypi__" false fsSample) =
      some "//pypi__sample" ∧
    (extractAddr (extract_wheel idPass idPass wheelSample [] [] true "pypi__" false fsSample) =
      some ("//" ++ (if false then "." else sanitise_name wheelSample.name "pypi__")) ∧
    (false = false →
      extractHasFile (extract_wheel idPass idPass wheelSample [] [] true "pypi__" false fsSample)
        wheelSample.path = false ∧
      extractReadFile (extract_wheel idPass idPass wheelSample [] [] true "pypi__" false fsSample)
          (sanitise_name wheelSample.name "pypi__" ++ "/BUILD.bazel") =
        some (generate_build_file_contents (sanitise_name wheelSample.name "pypi__")
          (dep_labels false (wheel_dep_names wheelSample []) "pypi__")
          (whl_file_dep_labels false (wheel_dep_names wheelSample []) "pypi__") [])) ∧
    (false = true →
      extractReadFile (extract_wheel idPass idPass wheelSample [] [] true "pypi__" false fsSample)
          "./BUILD.bazel" =
        some (generate_build_file_contents PY_LIBRARY_LABEL
          (dep_labels true (wheel_dep_names wheelSample []) "pypi__")
          (whl_file_dep_labels true (wheel_dep_names wheelSample []) "pypi__") []))) ∧
    (extractAddr (extract_wheel idPass idPass wheelSample [] [] true "pypi__" true fsSample) =
      some ("//" ++ (if true then "." else sanitise_name wheelSample.name "pypi__")) ∧
    (true = false →
      extractHasFile (extract_wheel idPass idPass wheelSample [] [] true "pypi__" true fsSample)
        wheelSample.path = false ∧
      extractReadFile (extract_wheel idPass idPass wheelSample [] [] true "pypi__" true fsSample)
          (sanitise_name wheelSample.name "pypi__" ++ "/BUILD.bazel") =
        some (generate_build_file_contents (sanitise_name wheelSample.name "pypi__")
          (dep_labels false (wheel_dep_names wheelSample []) "pypi__")
          (whl_file_dep_labels false (wheel_dep_names wheelSample []) "pypi__") [])) ∧
    (true = true →
      extractReadFile (extract_wheel idPass idPass wheelSample [] [] true "pypi__" true fsSample)
          "./BUILD.bazel" =
        some (generate_build_file_contents PY_LIBRARY_LABEL
          (dep_labels true (wheel_dep_names wheelSample []) "pypi__")
          (whl_file_dep_labels true (wheel_dep_names wheelSample []) "pypi__") []))) :=
  ⟨by decide, by decide, by decide, by decide,
   spec_C3 idPass idPass wheelSample [] [] true "pypi__" false fsSample (by decide) (by decide),
   spec_C3 idPass idPass wheelSample [] [] true "pypi__" true fsSample (by decide) (by decide)⟩

/-- C8: `extract_wheel` looks up requested extras by the exact literal
distribution-name string; when the wheel's name is absent from the extras
mapping the whole run is identical to a run with an empty extras mapping (the
empty set of extras), so absence is never an error and yields the same
dependency set as requesting no extras. -/
theorem spec_C8 (sp nsf : String → FS → FS) (whl : Wheel)
    (extras : List (String × List String)) (pde : List String) (en : Bool) (pfx : String)
    (inc : Bool) (fs0 : FS)
    (h : (extras.map Prod.fst).contains whl.name = false) :
    extract_wheel sp nsf whl extras pde en pfx inc fs0 =
    extract_wheel sp nsf whl [] pde en pfx inc fs0 := by
  have hx : wheel_dep_names whl extras = wheel_dep_names whl [] := by
    unfold wheel_dep_names extras_requested_of
    rw [h]
    simp
  unfold extract_wheel
  rw [hx]

/-- Witness for C8: the extras mapping holds key `Sample` while the wheel's
name is `sample` — exact-string lookup misses it, and the run equals the run
with no extras requested (and completes without error). -/
theorem spec_C8_witness :
    (([("Sample", ["socks"])] : List (String × List String)).map Prod.fst).contains
      wheelExtras.name = false ∧
    extract_wheel idPass idPass wheelExtras [("Sample", ["socks"])] [] true "pypi__" false fsSample =
      extract_wheel idPass idPass wheelExtras [] [] true "pypi__" false fsSample ∧
    extractOk (extract_wheel idPass idPass wheelExtras [("Sample", ["socks"])] [] true "pypi__"
      false fsSample) = true :=
  ⟨by decide,
   spec_C8 idPass idPass wheelExtras [("Sample", ["socks"])] [] true "pypi__" false fsSample
     (by decide),
   by decide⟩

/-- C9: when `extract_wheel` runs in standalone (non-incremental) mode and a
directory named by the sanitized distribution name already exists, the run
fails with the directory-already-exists error for that directory, propagated
to the caller; nothing is reused or overwritten. -/
theorem spec_C9 (sp nsf : String → FS → FS) (whl : Wheel)
    (extras : List (String × List String)) (pde : List String) (en : Bool) (pfx : String)
    (fs0 : FS) (h : fs0.hasDir (sanitise_name whl.name pfx) = true) :
    extract_wheel sp nsf whl extras pde en pfx false fs0 =
      .error (.fileExists (sanitise_name whl.name pfx)) := by
  unfold extract_wheel FS.mkdir
  simp [h]

/-- Witness for C9: extracting the sample wheel standalone while directory
`pypi__sample` already exists yields the directory-already-exists error. -/
theorem spec_C9_witness :
    fsSampleDirTaken.hasDir (sanitise_name wheelSample.name "pypi__") = true ∧
    extract_wheel idPass idPass wheelSample [] [] true "pypi__" false fsSampleDirTaken =
      .error (.fileExists (sanitise_name wheelSample.name "pypi__")) :=
  ⟨by decide,
   spec_C9 idPass idPass wheelSample [] [] true "pypi__" fsSampleDirTaken (by decide)⟩

end Bazel
